import Mathlib

/-!
Shallow embedding of the scan-matching localization node
(`src/src/neo_localization_node.cpp`) and proofs about it.

Modelling conventions:
* `double`/`float` arithmetic is modelled by exact real arithmetic (`ℝ`);
  message payloads that only feed decidable tests (scan ranges, raw map
  cells) are modelled by `ℚ`/`ℤ` so the tests stay decidable.
* The geometry pipeline (4x4 `Matrix` algebra from the missing
  `GridMap.h`/`Solver.h` headers and the tf lookups) is abstracted: the
  odometry-predicted grid pose, the solver runs and the pose-to-offset
  post-map enter the embedded callbacks as explicit arguments.
* `std::mt19937` + `std::normal_distribution` draws are modelled
  symbolically: a draw from `N(mean, std)` is `mean + std * z` where `z`
  is the standard-normal variate produced by the generator; the stream of
  variates is an explicit list argument.
* ROS callbacks become pure state-transition functions on the node's
  persistent state; the returned `Bool` records whether `broadcast()`
  reached `sendTransform` (i.e. the success branch ran with
  `m_broadcast_tf` set).
-/

namespace NeoLocalization

open Real

/-- The persistent offset state of the node: `m_offset_x`, `m_offset_y`,
`m_offset_yaw`, `m_confidence`, `m_offset_time` (time modelled as `ℕ`). -/
structure OffsetState where
  x : ℝ
  y : ℝ
  yaw : ℝ
  confidence : ℝ
  time : ℕ

/-- The solver's pose fields `pose_x`, `pose_y`, `pose_yaw`. -/
structure SolverPose where
  x : ℝ
  y : ℝ
  yaw : ℝ

/-- `GridMap<float>`: square size, cell resolution and row-major cells
(cell values exact rationals, modelling the `float` contents). -/
structure GridMap where
  size : ℕ
  resolution : ℚ
  cells : List ℚ

/-- The node's shared mutable state behind `m_node_mutex`: the offset
state, the active grid (`m_map`, `none` before the first map arrives) and
the grid-to-map transform `m_grid_to_map` (its planar pose content). -/
structure NodeState where
  offset : OffsetState
  grid : Option GridMap
  gridToMap : ℝ × ℝ × ℝ

/-- The ROS `angles` package's `normalize_angle` over exact reals: the
unique representative of an angle in `(-π, π]` modulo `2π`. -/
noncomputable def normalize_angle (θ : ℝ) : ℝ :=
  toIocMod Real.two_pi_pos (-π) θ

/-- `angles::shortest_angular_distance(from, to)` =
`normalize_angle(to - from)`. -/
noncomputable def shortest_angular_distance (src dst : ℝ) : ℝ :=
  normalize_angle (dst - src)

/-- Line 172: `const double rel_std_dev = fmax(1 - m_confidence, 0);`. -/
noncomputable def rel_std_dev (confidence : ℝ) : ℝ :=
  max (1 - confidence) 0

/-- Symbolic model of one `std::normal_distribution(mean, std)` draw:
`mean + std * z` for a standard-normal variate `z`. -/
noncomputable def draw_normal (mean std z : ℝ) : ℝ :=
  mean + std * z

/-- Lines 173-175 and 190-192: the three distributions are constructed
from the solver pose while it still holds the odometry-predicted guess,
so each candidate sample is centered per-axis on that original guess with
standard deviation `m_sample_std_* * rel_std_dev`; `z` packs the three
standard-normal variates drawn from `m_generator` for one sample. -/
noncomputable def sample_pose (guess : SolverPose) (stdX stdY stdYaw confidence : ℝ)
    (z : ℝ × ℝ × ℝ) : SolverPose :=
  ⟨draw_normal guess.x (stdX * rel_std_dev confidence) z.1,
   draw_normal guess.y (stdY * rel_std_dev confidence) z.2.1,
   draw_normal guess.yaw (stdYaw * rel_std_dev confidence) z.2.2⟩

/-- Lines 171-211: multi-hypothesis search. `solveRuns` abstracts the
inner `m_solver_iterations` loop of `m_solver.solve` (the solver body
lives in the missing `Solver.h`), mapping a start pose to the converged
pose and its residual norm `r_norm`. The first run starts from the
odometry-predicted guess; each further run starts from a Gaussian sample
around that same guess and replaces the best only on a strictly smaller
`r_norm` (line 200). -/
noncomputable def scan_match (solveRuns : SolverPose → SolverPose × ℝ) (guess : SolverPose)
    (stdX stdY stdYaw confidence : ℝ) (zs : List (ℝ × ℝ × ℝ)) : SolverPose × ℝ :=
  (zs.map (sample_pose guess stdX stdY stdYaw confidence)).foldl
    (fun best s => if (solveRuns s).2 < best.2 then solveRuns s else best)
    (solveRuns guess)

/-- Lines 220-227: blend the newly computed odom-to-map offset into the
persistent one with gain `m_update_gain`, wrap-free yaw accumulation via
`shortest_angular_distance`, record the scan stamp, and grow confidence by
`(m_max_confidence - m_confidence) * 0.01` — the literal `0.01` of line
227 (the configured `m_confidence_gain` is not referenced there). -/
noncomputable def applyCorrection (st : OffsetState) (newOffset : ℝ × ℝ × ℝ)
    (stamp : ℕ) (updateGain maxConfidence : ℝ) : OffsetState :=
  ⟨newOffset.1 * updateGain + st.x * (1 - updateGain),
   newOffset.2.1 * updateGain + st.y * (1 - updateGain),
   st.yaw + shortest_angular_distance st.yaw newOffset.2.2 * updateGain,
   st.confidence + (maxConfidence - st.confidence) * (1 / 100),
   stamp⟩

/-- Modelled from the spec: `applyCorrection`'s confidence update as the
spec states it, `confidence += (maxConfidence − confidence) *
confidenceGain` with `confidenceGain` the configured `confidence_gain`
parameter; used only to compare against the source's line 227. -/
noncomputable def spec_confidence_update (confidence maxConfidence confidenceGain : ℝ) : ℝ :=
  confidence + (maxConfidence - confidence) * confidenceGain

/-- Lines 148-162: one scan point is produced per range strictly greater
than zero (`ranges[i] <= 0` is skipped), so the point count equals the
count of positive ranges. Ranges are modelled as exact rationals. -/
def numValidPoints (ranges : List ℚ) : ℕ :=
  ranges.countP (fun r => decide (0 < r))

/-- Lines 111-233: `scan_callback` as a state transition. `sensorOk` and
`baseOk` model the two tf lookups succeeding; `guess` is the
odometry-predicted grid pose of lines 139-144 (matrix algebra abstracted);
`postMap` abstracts lines 214-218 mapping the best solver pose back to an
odom-to-map offset; `broadcastTF` is `m_broadcast_tf`. The returned `Bool`
tells whether a transform was broadcast. -/
noncomputable def scan_callback (sensorOk baseOk broadcastTF : Bool)
    (ranges : List ℚ) (stamp : ℕ) (guess : SolverPose) (stdX stdY stdYaw : ℝ)
    (solveRuns : SolverPose → SolverPose × ℝ) (zs : List (ℝ × ℝ × ℝ))
    (postMap : SolverPose → ℝ × ℝ × ℝ) (updateGain maxConfidence : ℝ)
    (st : NodeState) : NodeState × Bool :=
  if st.grid.isNone then (st, false)
  else if sensorOk = false then (st, false)
  else if baseOk = false then (st, false)
  else if numValidPoints ranges < 10 then (st, false)
  else
    let best := scan_match solveRuns guess stdX stdY stdYaw st.offset.confidence zs
    (⟨applyCorrection st.offset (postMap best.1) stamp updateGain maxConfidence,
      st.grid, st.gridToMap⟩, broadcastTF)

/-- Lines 290-295: convert one raw occupancy cell (`int8`) to a
likelihood: `fminf(cell / 100.f, 1.f)` when `cell >= 0`, else `0`. -/
def convert_cell (v : ℤ) : ℚ :=
  if 0 ≤ v then min ((v : ℚ) / 100) 1 else 0

/-- Lines 288-297: the converted cell array of a freshly ingested `n × n`
map, indexed row-major as `data[y * size + x]`. -/
def buildCells (n : ℕ) (data : List ℤ) : List ℚ :=
  (List.range (n * n)).map (fun i => convert_cell (data.getD i 0))

/-- Lines 274-321: `map_callback`. A non-square map is rejected with no
state change; otherwise the converted grid is downscaled `m_map_downscale`
times and smoothed `m_num_smooth` times (`downscaleFn`/`smoothFn` abstract
the bodies from the missing `GridMap.h`), then the new grid, the origin's
grid-to-map transform and a zero confidence are installed; the offset
x/y/yaw/time are untouched. -/
noncomputable def map_callback (width height : ℕ) (resolution : ℚ) (data : List ℤ)
    (origin : ℝ × ℝ × ℝ) (downscales smooths : ℕ)
    (downscaleFn smoothFn : GridMap → GridMap) (st : NodeState) : NodeState :=
  if width ≠ height then st
  else
    let m0 : GridMap := ⟨width, resolution, buildCells width data⟩
    let m1 := downscaleFn^[downscales] m0
    let m2 := smoothFn^[smooths] m1
    ⟨⟨st.offset.x, st.offset.y, st.offset.yaw, 0, st.offset.time⟩, some m2, origin⟩

/-- Lines 235-272: `pose_callback`. An estimate whose frame differs from
`m_map_frame` is rejected; a failed base-to-odom lookup aborts; otherwise
the offset is overwritten with the computed odom-to-map offset (`newOffset`
abstracts the matrix algebra of lines 255-259), the stamp recorded,
confidence reset to exactly 0, and a transform broadcast. -/
noncomputable def pose_callback (frameId mapFrame : String) (lookupOk broadcastTF : Bool)
    (newOffset : ℝ × ℝ × ℝ) (stamp : ℕ) (st : NodeState) : NodeState × Bool :=
  if frameId ≠ mapFrame then (st, false)
  else if lookupOk = false then (st, false)
  else (⟨⟨newOffset.1, newOffset.2.1, newOffset.2.2, 0, stamp⟩, st.grid, st.gridToMap⟩,
        broadcastTF)

/-- C4: a scan cycle that produces fewer than 10 valid points (ranges
strictly above zero) is skipped: the whole offset state — x, y, yaw,
confidence and timestamp — is left unchanged and no transform is
broadcast, whatever the other inputs. -/
theorem C4_too_few_points_skips_cycle
    (sensorOk baseOk broadcastTF : Bool) (ranges : List ℚ) (stamp : ℕ)
    (guess : SolverPose) (stdX stdY stdYaw : ℝ)
    (solveRuns : SolverPose → SolverPose × ℝ) (zs : List (ℝ × ℝ × ℝ))
    (postMap : SolverPose → ℝ × ℝ × ℝ) (updateGain maxConfidence : ℝ)
    (st : NodeState) (h : numValidPoints ranges < 10) :
    scan_callback sensorOk baseOk broadcastTF ranges stamp guess stdX stdY stdYaw
      solveRuns zs postMap updateGain maxConfidence st = (st, false) := by
  unfold scan_callback
  cases hg : st.grid.isNone <;> cases sensorOk <;> cases baseOk <;> simp [hg, h]

/-- Witness for C4 at a concrete scan with 2 valid points. -/
theorem C4_too_few_points_skips_cycle_witness :
    numValidPoints [4, -1, 0, 2] < 10 ∧
    scan_callback true true true [4, -1, 0, 2] 7 ⟨0, 0, 0⟩ (1 / 2) (1 / 2) (1 / 2)
      (fun p => (p, 0)) [] (fun p => (p.x, p.y, p.yaw)) (1 / 2) (95 / 100)
      ⟨⟨0, 0, 0, 0, 0⟩, none, (0, 0, 0)⟩ =
      (⟨⟨0, 0, 0, 0, 0⟩, none, (0, 0, 0)⟩, false) :=
  ⟨by decide, C4_too_few_points_skips_cycle _ _ _ _ _ _ _ _ _ _ _ _ _ _ _ (by decide)⟩

/-- C5: an occupancy map whose width differs from its height is rejected
and the node state — active grid, grid-to-map transform, offset and
confidence — is left completely unchanged. -/
theorem C5_nonsquare_map_rejected
    (width height : ℕ) (resolution : ℚ) (data : List ℤ) (origin : ℝ × ℝ × ℝ)
    (downscales smooths : ℕ) (downscaleFn smoothFn : GridMap → GridMap)
    (st : NodeState) (h : width ≠ height) :
    map_callback width height resolution data origin downscales smooths
      downscaleFn smoothFn st = st := by
  unfold map_callback
  simp [h]

/-- Witness for C5 at a concrete 50 x 60 map. -/
theorem C5_nonsquare_map_rejected_witness :
    (50 : ℕ) ≠ 60 ∧
    map_callback 50 60 1 [] (0, 0, 0) 0 5 id id ⟨⟨1, 2, 3, 4, 5⟩, none, (6, 7, 8)⟩ =
      ⟨⟨1, 2, 3, 4, 5⟩, none, (6, 7, 8)⟩ :=
  ⟨by decide, C5_nonsquare_map_rejected _ _ _ _ _ _ _ _ _ _ (by decide)⟩

/-- C6: an external pose estimate in the map frame (whose base-to-odom
lookup succeeds) overwrites the offset with the computed value directly —
the previous offset does not appear in the result, i.e. no blending — and
resets the confidence to exactly 0; an estimate in any other frame is
rejected with no state mutated and nothing broadcast. -/
theorem C6_external_pose_overwrites_offset
    (frameId mapFrame : String) (lookupOk broadcastTF : Bool)
    (newOffset : ℝ × ℝ × ℝ) (stamp : ℕ) (st : NodeState) :
    (frameId = mapFrame → lookupOk = true →
      pose_callback frameId mapFrame lookupOk broadcastTF newOffset stamp st =
        (⟨⟨newOffset.1, newOffset.2.1, newOffset.2.2, 0, stamp⟩, st.grid, st.gridToMap⟩,
         broadcastTF)) ∧
    (frameId ≠ mapFrame →
      pose_callback frameId mapFrame lookupOk broadcastTF newOffset stamp st =
        (st, false)) := by
  constructor
  · intro h1 h2
    unfold pose_callback
    simp [h1, h2]
  · intro h1
    unfold pose_callback
    simp [h1]

/-- Witness for C6: a matching-frame estimate replaces the offset and
zeroes confidence; a wrong-frame estimate changes nothing. -/
theorem C6_external_pose_overwrites_offset_witness :
    pose_callback "map" "map" true true (1, 2, 3) 7 ⟨⟨9, 9, 9, 9, 9⟩, none, (0, 0, 0)⟩ =
      (⟨⟨1, 2, 3, 0, 7⟩, none, (0, 0, 0)⟩, true) ∧
    pose_callback "odom" "map" true true (1, 2, 3) 7 ⟨⟨9, 9, 9, 9, 9⟩, none, (0, 0, 0)⟩ =
      (⟨⟨9, 9, 9, 9, 9⟩, none, (0, 0, 0)⟩, false) :=
  ⟨(C6_external_pose_overwrites_offset "map" "map" true true (1, 2, 3) 7 _).1 rfl rfl,
   (C6_external_pose_overwrites_offset "odom" "map" true true (1, 2, 3) 7 _).2 (by decide)⟩

/-- C10: an external pose estimate in the correct map frame whose
base-to-odom transform lookup fails leaves the whole state unchanged — in
particular the confidence is not reset — and broadcasts nothing. -/
theorem C10_lookup_failure_no_mutation
    (frameId mapFrame : String) (broadcastTF : Bool) (newOffset : ℝ × ℝ × ℝ)
    (stamp : ℕ) (st : NodeState) (h : frameId = mapFrame) :
    pose_callback frameId mapFrame false broadcastTF newOffset stamp st = (st, false) := by
  unfold pose_callback
  simp [h]

/-- Witness for C10 at a concrete state with nonzero confidence. -/
theorem C10_lookup_failure_no_mutation_witness :
    pose_callback "map" "map" false true (1, 2, 3) 7 ⟨⟨9, 8, 7, 6, 5⟩, none, (0, 0, 0)⟩ =
      (⟨⟨9, 8, 7, 6, 5⟩, none, (0, 0, 0)⟩, false) :=
  C10_lookup_failure_no_mutation "map" "map" true (1, 2, 3) 7 _ rfl

/-- C1 (refutation by evaluation): the scan-driven confidence update of
line 227 uses the literal gain `0.01` and not the configured
`confidence_gain` parameter (read at line 99 but never used). With
`confidence_gain` configured to `0.5`, confidence `0` and
`max_confidence` `0.95`, the code yields `0.0095` while the claimed
update yields `0.475`. -/
theorem C1_confidence_gain_hardcoded :
    (applyCorrection ⟨0, 0, 0, 0, 0⟩ (0, 0, 0) 0 (1 / 2) (95 / 100)).confidence = 19 / 2000 ∧
    spec_confidence_update 0 (95 / 100) (1 / 2) = 19 / 40 ∧
    (19 / 2000 : ℝ) ≠ 19 / 40 := by
  refine ⟨?_, ?_, by norm_num⟩
  · show (0 : ℝ) + ((95 / 100 : ℝ) - 0) * (1 / 100) = 19 / 2000
    norm_num
  · show (0 : ℝ) + ((95 / 100 : ℝ) - 0) * (1 / 2) = 19 / 40
    norm_num

/-- C8: assuming `0 ≤ confidence ≤ maxConfidence ≤ 1` beforehand, a
scan-driven correction leaves confidence non-decreasing, still at most
`maxConfidence` and non-negative; an external pose estimate and a map
replacement reset it to exactly 0, which also lies in
`[0, maxConfidence]`. -/
theorem C8_confidence_invariant
    (newOffset : ℝ × ℝ × ℝ) (stamp : ℕ) (updateGain maxConfidence : ℝ)
    (frameId : String) (broadcastTF : Bool)
    (n : ℕ) (resolution : ℚ) (data : List ℤ) (origin : ℝ × ℝ × ℝ)
    (downscales smooths : ℕ) (downscaleFn smoothFn : GridMap → GridMap)
    (st : NodeState)
    (h0 : 0 ≤ st.offset.confidence) (h1 : st.offset.confidence ≤ maxConfidence)
    (_h2 : maxConfidence ≤ 1) :
    (st.offset.confidence ≤
        (applyCorrection st.offset newOffset stamp updateGain maxConfidence).confidence ∧
      (applyCorrection st.offset newOffset stamp updateGain maxConfidence).confidence ≤
        maxConfidence ∧
      0 ≤ (applyCorrection st.offset newOffset stamp updateGain maxConfidence).confidence) ∧
    (pose_callback frameId frameId true broadcastTF newOffset stamp st).1.offset.confidence
      = 0 ∧
    (map_callback n n resolution data origin downscales smooths downscaleFn smoothFn
      st).offset.confidence = 0 ∧
    (0 ≤ (0 : ℝ) ∧ (0 : ℝ) ≤ maxConfidence) := by
  have hc : (applyCorrection st.offset newOffset stamp updateGain maxConfidence).confidence
      = st.offset.confidence + (maxConfidence - st.offset.confidence) * (1 / 100) := rfl
  refine ⟨⟨?_, ?_, ?_⟩, ?_, ?_, le_refl 0, by linarith⟩
  · rw [hc]; nlinarith
  · rw [hc]; nlinarith
  · rw [hc]; nlinarith
  · unfold pose_callback; simp
  · unfold map_callback; simp

/-- Witness for C8 at confidence 1/2, max 0.95. -/
theorem C8_confidence_invariant_witness :
    ((0 : ℝ) ≤ 1 / 2 ∧ (1 / 2 : ℝ) ≤ 95 / 100 ∧ (95 / 100 : ℝ) ≤ 1) ∧
    (((1 / 2 : ℝ) ≤
        (applyCorrection ⟨0, 0, 0, 1 / 2, 0⟩ (0, 0, 0) 3 (1 / 2) (95 / 100)).confidence ∧
      (applyCorrection ⟨0, 0, 0, 1 / 2, 0⟩ (0, 0, 0) 3 (1 / 2) (95 / 100)).confidence ≤
        95 / 100 ∧
      0 ≤ (applyCorrection ⟨0, 0, 0, 1 / 2, 0⟩ (0, 0, 0) 3 (1 / 2) (95 / 100)).confidence) ∧
    (pose_callback "map" "map" true true (0, 0, 0) 3
      ⟨⟨0, 0, 0, 1 / 2, 0⟩, none, (0, 0, 0)⟩).1.offset.confidence = 0 ∧
    (map_callback 2 2 1 [] (0, 0, 0) 0 0 id id
      ⟨⟨0, 0, 0, 1 / 2, 0⟩, none, (0, 0, 0)⟩).offset.confidence = 0 ∧
    (0 ≤ (0 : ℝ) ∧ (0 : ℝ) ≤ 95 / 100)) :=
  ⟨⟨by norm_num, by norm_num, by norm_num⟩,
   C8_confidence_invariant (0, 0, 0) 3 (1 / 2) (95 / 100) "map" true 2 1 [] (0, 0, 0)
     0 0 id id ⟨⟨0, 0, 0, 1 / 2, 0⟩, none, (0, 0, 0)⟩
     (by norm_num) (by norm_num) (by norm_num)⟩

/-- C9: every converted cell of a freshly ingested square map lies in
`[0, 1]`; a raw value `v ≥ 0` becomes `min (v / 100) 1` (so raw values
above 100 clamp to 1) and a negative (unknown) raw value becomes 0. -/
theorem C9_cells_in_unit_range
    (n : ℕ) (data : List ℤ) (c : ℚ) (hc : c ∈ buildCells n data) (v : ℤ) :
    (0 ≤ c ∧ c ≤ 1) ∧
    (0 ≤ v → convert_cell v = min ((v : ℚ) / 100) 1) ∧
    (100 < v → convert_cell v = 1) ∧
    (v < 0 → convert_cell v = 0) := by
  refine ⟨?_, ?_, ?_, ?_⟩
  · obtain ⟨i, _, rfl⟩ := List.mem_map.mp hc
    unfold convert_cell
    split
    · rename_i hw
      constructor
      · exact le_min (by positivity) (by norm_num)
      · exact min_le_right _ _
    · exact ⟨le_refl 0, by norm_num⟩
  · intro hv
    unfold convert_cell
    rw [if_pos hv]
  · intro hv
    unfold convert_cell
    rw [if_pos (le_of_lt (lt_trans (by norm_num) hv))]
    refine min_eq_right ?_
    rw [le_div_iff₀ (by norm_num)]
    norm_num
    exact_mod_cast le_of_lt hv
  · intro hv
    unfold convert_cell
    rw [if_neg (not_le.mpr hv)]

/-- Witness for C9: the raw cell 200 of a 1x1 map converts to exactly 1,
which the theorem bounds inside `[0, 1]`; a raw -5 converts to 0. -/
theorem C9_cells_in_unit_range_witness :
    ((1 : ℚ) ∈ buildCells 1 [200]) ∧
    (0 ≤ (1 : ℚ) ∧ (1 : ℚ) ≤ 1) ∧
    convert_cell 200 = 1 ∧ convert_cell (-5) = 0 :=
  ⟨by norm_num [buildCells, convert_cell],
   (C9_cells_in_unit_range 1 [200] 1 (by norm_num [buildCells, convert_cell]) 200).1,
   (C9_cells_in_unit_range 1 [200] 1
     (by norm_num [buildCells, convert_cell]) 200).2.2.1 (by decide),
   (C9_cells_in_unit_range 1 [200] 1
     (by norm_num [buildCells, convert_cell]) (-5)).2.2.2 (by decide)⟩

/-- Folding the strict-improvement replacement of lines 200-205 over any
candidate list never worsens the incumbent's residual norm, and the
incumbent is replaced only by a strictly better result. -/
theorem foldl_best_le_or_lt (solveRuns : SolverPose → SolverPose × ℝ)
    (l : List SolverPose) (b : SolverPose × ℝ) :
    (l.foldl (fun best s => if (solveRuns s).2 < best.2 then solveRuns s else best) b).2
      ≤ b.2 ∧
    (l.foldl (fun best s => if (solveRuns s).2 < best.2 then solveRuns s else best) b = b ∨
     (l.foldl (fun best s => if (solveRuns s).2 < best.2 then solveRuns s else best) b).2
       < b.2) := by
  induction l generalizing b with
  | nil => simp
  | cons s t ih =>
    simp only [List.foldl_cons]
    by_cases h : (solveRuns s).2 < b.2
    · rw [if_pos h]
      rcases ih (solveRuns s) with ⟨hle, hor⟩
      refine ⟨le_trans hle (le_of_lt h), Or.inr ?_⟩
      rcases hor with he | hlt
      · rw [he]; exact h
      · exact lt_trans hlt h
    · rw [if_neg h]
      exact ih b

/-- C3: the multi-hypothesis search never returns a residual norm above
the one produced by the single run from the odometry-predicted guess
alone, and the returned (pose, residual) pair differs from that run's
result only when its residual norm is strictly lower. The optimizer
(grid, point set, iteration count) is abstracted as `solveRuns`; the RNG
state is abstracted as the variate list `zs`. -/
theorem C3_search_monotonic_improvement
    (solveRuns : SolverPose → SolverPose × ℝ) (guess : SolverPose)
    (stdX stdY stdYaw confidence : ℝ) (zs : List (ℝ × ℝ × ℝ)) :
    (scan_match solveRuns guess stdX stdY stdYaw confidence zs).2 ≤ (solveRuns guess).2 ∧
    (scan_match solveRuns guess stdX stdY stdYaw confidence zs = solveRuns guess ∨
     (scan_match solveRuns guess stdX stdY stdYaw confidence zs).2
       < (solveRuns guess).2) := by
  unfold scan_match
  exact foldl_best_le_or_lt solveRuns _ (solveRuns guess)

/-- C7: in the success branch of a scan cycle the new offset comes from a
hypothesis search whose candidate poses are drawn per-axis around the
original odometry-predicted guess (the distributions of lines 173-175 are
built before the solver refines the pose) with standard deviation
`configured std × max(1 − confidence, 0)`, where the confidence is the
value held before this cycle's update (the update happens afterwards,
inside `applyCorrection`). -/
theorem C7_sampling_centered_on_guess
    (sensorOk baseOk broadcastTF : Bool) (ranges : List ℚ) (stamp : ℕ)
    (guess : SolverPose) (stdX stdY stdYaw : ℝ)
    (solveRuns : SolverPose → SolverPose × ℝ) (zs : List (ℝ × ℝ × ℝ))
    (postMap : SolverPose → ℝ × ℝ × ℝ) (updateGain maxConfidence : ℝ)
    (st : NodeState) (z : ℝ × ℝ × ℝ) (_hz : z ∈ zs)
    (hg : st.grid.isNone = false) (hs : sensorOk = true) (hb : baseOk = true)
    (hp : 10 ≤ numValidPoints ranges) :
    (scan_callback sensorOk baseOk broadcastTF ranges stamp guess stdX stdY stdYaw
        solveRuns zs postMap updateGain maxConfidence st).1.offset =
      applyCorrection st.offset
        (postMap (scan_match solveRuns guess stdX stdY stdYaw st.offset.confidence zs).1)
        stamp updateGain maxConfidence ∧
    sample_pose guess stdX stdY stdYaw st.offset.confidence z =
      ⟨guess.x + stdX * max (1 - st.offset.confidence) 0 * z.1,
       guess.y + stdY * max (1 - st.offset.confidence) 0 * z.2.1,
       guess.yaw + stdYaw * max (1 - st.offset.confidence) 0 * z.2.2⟩ := by
  refine ⟨?_, rfl⟩
  unfold scan_callback
  simp [hg, hs, hb, Nat.not_lt.mpr hp]

/-- Witness for C7 at a concrete cycle: 10 valid points, confidence 1/2,
one sample variate (1, 0, 0). -/
theorem C7_sampling_centered_on_guess_witness :
    10 ≤ numValidPoints [1, 1, 1, 1, 1, 1, 1, 1, 1, 1] ∧
    (((1 : ℝ), (0 : ℝ), (0 : ℝ)) ∈ [((1 : ℝ), (0 : ℝ), (0 : ℝ))]) ∧
    (scan_callback true true true [1, 1, 1, 1, 1, 1, 1, 1, 1, 1] 3 ⟨0, 0, 0⟩
        (1 / 2) (1 / 2) (1 / 2) (fun p => (p, 0)) [(1, 0, 0)]
        (fun p => (p.x, p.y, p.yaw)) (1 / 2) (95 / 100)
        ⟨⟨0, 0, 0, 1 / 2, 0⟩, some ⟨1, 1, []⟩, (0, 0, 0)⟩).1.offset =
      applyCorrection ⟨0, 0, 0, 1 / 2, 0⟩
        ((fun p => (p.x, p.y, p.yaw))
          (scan_match (fun p => (p, 0)) ⟨0, 0, 0⟩ (1 / 2) (1 / 2) (1 / 2) (1 / 2)
            [(1, 0, 0)]).1)
        3 (1 / 2) (95 / 100) ∧
    sample_pose ⟨0, 0, 0⟩ (1 / 2) (1 / 2) (1 / 2) (1 / 2) (1, 0, 0) =
      ⟨(0 : ℝ) + (1 / 2) * max (1 - (1 / 2 : ℝ)) 0 * 1,
       (0 : ℝ) + (1 / 2) * max (1 - (1 / 2 : ℝ)) 0 * 0,
       (0 : ℝ) + (1 / 2) * max (1 - (1 / 2 : ℝ)) 0 * 0⟩ := by
  have h := C7_sampling_centered_on_guess true true true
    [1, 1, 1, 1, 1, 1, 1, 1, 1, 1] 3 ⟨0, 0, 0⟩ (1 / 2) (1 / 2) (1 / 2)
    (fun p => (p, 0)) [(1, 0, 0)] (fun p => (p.x, p.y, p.yaw)) (1 / 2) (95 / 100)
    ⟨⟨0, 0, 0, 1 / 2, 0⟩, some ⟨1, 1, []⟩, (0, 0, 0)⟩ (1, 0, 0)
    (by simp) rfl rfl rfl (by decide)
  exact ⟨by decide, by simp, h.1, h.2⟩

/-- `normalize_angle` always lands in `(-π, π]`. -/
theorem normalize_angle_mem_Ioc (θ : ℝ) : normalize_angle θ ∈ Set.Ioc (-π) π := by
  have h := toIocMod_mem_Ioc Real.two_pi_pos (-π) θ
  have e : -π + 2 * π = π := by ring
  rw [e] at h
  exact h

/-- `normalize_angle θ` differs from `θ` by an integer multiple of `2π`. -/
theorem normalize_angle_congruent (θ : ℝ) :
    ∃ z : ℤ, θ - normalize_angle θ = z * (2 * π) := by
  refine ⟨toIocDiv Real.two_pi_pos (-π) θ, ?_⟩
  have h := self_sub_toIocMod Real.two_pi_pos (-π) θ
  rw [zsmul_eq_mul] at h
  exact h.trans rfl

/-- `normalize_angle θ` has minimal absolute value among all angles
congruent to `θ` modulo `2π`. -/
theorem normalize_angle_abs_min (θ : ℝ) (k : ℤ) :
    |normalize_angle θ| ≤ |normalize_angle θ + 2 * π * k| := by
  set c := normalize_angle θ with hc
  have hmem : c ∈ Set.Ioc (-π) π := normalize_angle_mem_Ioc θ
  have habs : |c| ≤ π := abs_le.mpr ⟨le_of_lt hmem.1, hmem.2⟩
  rcases eq_or_ne k 0 with hk | hk
  · simp [hk]
  · have h1 : (1 : ℝ) ≤ |(k : ℝ)| := by
      rw [← Int.cast_abs]
      exact_mod_cast Int.one_le_abs hk
    have h2 : 2 * π ≤ |2 * π * k| := by
      rw [abs_mul]
      have hp : |2 * π| = 2 * π := abs_of_pos Real.two_pi_pos
      rw [hp]
      nlinarith [Real.two_pi_pos]
    have h3 : |2 * π * k| - |c| ≤ |c + 2 * π * k| := by
      have h4 := abs_sub_abs_le_abs_sub (2 * π * k) (-c)
      simp only [sub_neg_eq_add] at h4
      have e : 2 * π * (k : ℝ) + c = c + 2 * π * k := by ring
      rw [e] at h4
      simpa using h4
    have hpi := Real.pi_pos
    linarith

/-- C2 (amended): the yaw blending step adds `updateGain` times the
shortest angular distance from the current to the corrected yaw. That
increment (before scaling) lies in `(-π, π]`, is congruent to the raw yaw
difference modulo `2π`, and has minimal absolute value among all congruent
increments — so blending moves along the shorter angular path; in the
spec's example, blending from yaw 3.0 toward −3.0 with gain 1/2 lands
exactly at π (through π, not through 0). The blended result itself,
however, is not re-wrapped into `(-π, π]`. -/
theorem C2_yaw_blend_shorter_path
    (st : OffsetState) (ox oy b updateGain maxConfidence : ℝ) (stamp : ℕ) :
    shortest_angular_distance st.yaw b ∈ Set.Ioc (-π) π ∧
    (∃ z : ℤ, (b - st.yaw) - shortest_angular_distance st.yaw b = z * (2 * π)) ∧
    (∀ k : ℤ, |shortest_angular_distance st.yaw b| ≤
      |shortest_angular_distance st.yaw b + 2 * π * k|) ∧
    (applyCorrection st (ox, oy, b) stamp updateGain maxConfidence).yaw =
      st.yaw + shortest_angular_distance st.yaw b * updateGain ∧
    (applyCorrection ⟨0, 0, 3, 0, 0⟩ (0, 0, -3) 0 (1 / 2) maxConfidence).yaw = π := by
  refine ⟨normalize_angle_mem_Ioc _, normalize_angle_congruent _,
    fun k => normalize_angle_abs_min _ k, rfl, ?_⟩
  show (3 : ℝ) + shortest_angular_distance 3 (-3) * (1 / 2) = π
  have h : shortest_angular_distance (3 : ℝ) (-3) = 2 * π - 6 := by
    unfold shortest_angular_distance normalize_angle
    rw [toIocMod_eq_iff]
    refine ⟨⟨?_, ?_⟩, -1, ?_⟩
    · have := Real.pi_gt_three
      linarith
    · have := Real.pi_lt_d2
      linarith
    · rw [zsmul_eq_mul]
      push_cast
      ring
  rw [h]
  ring

/-- C2 counterexample: blending the offset yaw 3.1 toward a corrected yaw
of −3.0 with the default update gain 0.5 produces π + 1/20, which is NOT
within `(-π, π]` — the blended yaw is never re-wrapped. -/
theorem C2_yaw_result_not_wrapped_counterexample :
    (applyCorrection ⟨0, 0, 31 / 10, 0, 0⟩ (0, 0, -3) 0 (1 / 2) (95 / 100)).yaw
      ∉ Set.Ioc (-π) π := by
  have e : (applyCorrection ⟨0, 0, 31 / 10, 0, 0⟩ (0, 0, -3) 0 (1 / 2) (95 / 100)).yaw
      = π + 1 / 20 := by
    show (31 / 10 : ℝ) + shortest_angular_distance (31 / 10) (-3) * (1 / 2) = π + 1 / 20
    have h : shortest_angular_distance ((31 : ℝ) / 10) (-3) = 2 * π - 61 / 10 := by
      unfold shortest_angular_distance normalize_angle
      rw [toIocMod_eq_iff]
      refine ⟨⟨?_, ?_⟩, -1, ?_⟩
      · have := Real.pi_gt_three
        linarith
      · have := Real.pi_lt_d2
        linarith
      · rw [zsmul_eq_mul]
        push_cast
        ring
    rw [h]
    ring
  rw [e]
  intro hmem
  have h2 := hmem.2
  have hp := Real.pi_pos
  linarith

end NeoLocalization
